import Mathlib

/-!
Shallow embedding of the ecosnack-cron news pipeline (TypeScript) in Lean 4.

Conventions of the embedding:
* JavaScript numbers are modelled as `ℚ` (all arithmetic in the embedded code
  is exact decimal arithmetic on small values).
* `Date` values are modelled by their millisecond timestamp (`Date.getTime()`),
  so `Date.now()` becomes an explicit `now : ℚ` parameter.
* `undefined` / `null` fields become `Option`.
* Every external effect (OpenAI batch-scoring call, page fetch for image
  extraction, per-article analysis call, evidence-relevance call) is modelled
  by an explicit oracle parameter describing the outcome of that call; the
  pipeline code itself is translated statement by statement.
-/

namespace EcoSnack

/-! ## src/config/index.ts -/

/-- `config.openai.titleFilterLimit` (Stage 1: 250 → 30). -/
def titleFilterLimit : ℕ := 30

/-- `config.openai.qualityFilterLimit` (Stage 2: 30 → 20). -/
def qualityFilterLimit : ℕ := 20

/-! ## src/utils/index.ts : calculateRecencyScore

```
export function calculateRecencyScore(pubDate?: Date | null): number {
  if (!pubDate) return 0;
  const diffHours = (Date.now() - pubDate.getTime()) / (1000 * 60 * 60);
  if (diffHours < 0) return 10; // future date (parse error)
  if (diffHours <= 1) return 20;
  if (diffHours <= 6) return 15;
  if (diffHours <= 12) return 10;
  if (diffHours <= 24) return 5;
  return 0;
}
```
-/

/-- Recency bonus (0–20) from the publication timestamp; `now` is `Date.now()`
in milliseconds. -/
def calculateRecencyScore (now : ℚ) (pubDate : Option ℚ) : ℚ :=
  match pubDate with
  | none => 0
  | some t =>
    let diffHours := (now - t) / (1000 * 60 * 60)
    if diffHours < 0 then 10
    else if diffHours ≤ 1 then 20
    else if diffHours ≤ 6 then 15
    else if diffHours ≤ 12 then 10
    else if diffHours ≤ 24 then 5
    else 0

/-! ## src/types/index.ts : article records -/

/-- `RawNewsArticle`. -/
structure RawNewsArticle where
  title : String
  link : String
  description : Option String
  pubDate : Option ℚ
  source : Option String
  region : Option String
  imageUrl : Option String
deriving DecidableEq

/-- `TitleFilteredArticle extends RawNewsArticle`. -/
structure TitleFilteredArticle extends RawNewsArticle where
  titleScore : ℚ
  filterReason : String
deriving DecidableEq

/-- `QualityFilteredArticle extends TitleFilteredArticle`. -/
structure QualityFilteredArticle extends TitleFilteredArticle where
  qualityScore : ℚ
  hasValidImage : Bool
deriving DecidableEq

/-- One entry of `TitleFilterResponseSchema` / `QualityFilterResponseSchema`:
`{index, score, reason}` (`reason` is optional only in the quality variant,
and is not read by the quality-filter code, so one entry type suffices for
the title filter; the quality filter uses `QualityFilterItem`). -/
structure TitleFilterItem where
  index : ℕ
  score : ℚ
  reason : String
deriving DecidableEq

/-- One entry of `QualityFilterResponseSchema`: `{index, score, reason?}`. -/
structure QualityFilterItem where
  index : ℕ
  score : ℚ
  reason : Option String
deriving DecidableEq

/-- Outcome of one OpenAI batch-scoring call, as observed by the caller:
the parsed response (`ok`), a response that failed Zod validation
(`invalid`), or a thrown error / empty response (`err`). -/
inductive BatchOutcome (item : Type)
  | ok (items : List item)
  | invalid
  | err

/-! ## Sorting by composite score (models `Array.prototype.sort` with the
comparator `(a, b) => compositeB - compositeA`, i.e. descending order). -/

/-- The descending-key order used by both filter stages. -/
def keyGE (key : α → ℚ) (a b : α) : Prop := key b ≤ key a

instance (key : α → ℚ) : DecidableRel (keyGE key) :=
  fun a b => inferInstanceAs (Decidable (key b ≤ key a))

instance (key : α → ℚ) : IsTotal α (keyGE key) :=
  ⟨fun a b => le_total (key b) (key a)⟩

instance (key : α → ℚ) : IsTrans α (keyGE key) :=
  ⟨fun _ _ _ h1 h2 => le_trans h2 h1⟩

/-- `list.sort((a, b) => key(b) - key(a))`: sorted, descending in `key`. -/
def sortByKeyDesc (key : α → ℚ) (l : List α) : List α :=
  List.insertionSort (keyGE key) l

theorem sortByKeyDesc_perm (key : α → ℚ) (l : List α) :
    List.Perm (sortByKeyDesc key l) l :=
  List.perm_insertionSort _ l

theorem sortByKeyDesc_sorted (key : α → ℚ) (l : List α) :
    List.Sorted (keyGE key) (sortByKeyDesc key l) :=
  List.sorted_insertionSort _ l

theorem sortByKeyDesc_length (key : α → ℚ) (l : List α) :
    (sortByKeyDesc key l).length = l.length :=
  (sortByKeyDesc_perm key l).length_eq

theorem sorted_map_key {key : α → ℚ} {l : List α}
    (h : List.Sorted (keyGE key) l) :
    List.Sorted (· ≥ ·) (l.map key) := by
  rw [List.Sorted, List.pairwise_map]
  exact h

/-! ## src/services/news-analyzer.ts : Stage 1 — `filterByTitles`

The OpenAI call of `scoreTitleBatch` is modelled by a `titleOracle` giving,
for each batch start index, the outcome of the scoring call for that batch.
-/

/-- `scoreTitleBatch(client, batch, startIndex)`.
* `ok items`: the Zod-validated response; each article looks up its score by
  `items.find(s => s.index === startIndex + i)`, defaulting to score 0.
* `invalid`: `TitleFilterResponseSchema.safeParse` failed — every article in
  the batch gets the neutral default score 50.
* `err`: the API call threw or returned empty content — caught, every
  article gets the default score 50. -/
def scoreTitleBatch (titleOracle : ℕ → BatchOutcome TitleFilterItem)
    (batch : List RawNewsArticle) (startIndex : ℕ) : List TitleFilteredArticle :=
  match titleOracle startIndex with
  | .invalid => batch.map fun a => ⟨a, 50, "응답 검증 실패로 기본 점수 부여"⟩
  | .err => batch.map fun a => ⟨a, 50, "API 오류로 기본 점수 부여"⟩
  | .ok items =>
    batch.mapIdx fun i a =>
      match items.find? (fun s => s.index == startIndex + i) with
      | some s => ⟨a, s.score, s.reason⟩
      | none => ⟨a, 0, "점수 없음"⟩

/-- The batching loop of `filterByTitles`
(`for (let i = 0; i < articles.length; i += batchSize)`, `batchSize = 50`):
score each slice of 50 and concatenate the results in order. -/
def scoreTitleBatches (titleOracle : ℕ → BatchOutcome TitleFilterItem)
    (articles : List RawNewsArticle) (i : ℕ) : List TitleFilteredArticle :=
  if h : articles = [] then []
  else
    scoreTitleBatch titleOracle (articles.take 50) i ++
      scoreTitleBatches titleOracle (articles.drop 50) (i + 50)
termination_by articles.length
decreasing_by
  simp only [List.length_drop]
  have := List.length_pos.mpr h
  omega

/-- The composite ranking key of Stage 1:
`titleScore + calculateRecencyScore(pubDate)`. -/
def titleComposite (now : ℚ) (a : TitleFilteredArticle) : ℚ :=
  a.titleScore + calculateRecencyScore now a.pubDate

/-- `filterByTitles(articles)`: if `articles.length ≤ titleFilterLimit`,
bypass scoring and pass every article through with `titleScore = 100`;
otherwise score in batches of 50, sort by descending composite score
(`titleScore + recency`), and keep the top `titleFilterLimit`. -/
def filterByTitles (titleOracle : ℕ → BatchOutcome TitleFilterItem)
    (now : ℚ) (articles : List RawNewsArticle) : List TitleFilteredArticle :=
  if articles.length ≤ titleFilterLimit then
    articles.map fun a => ⟨a, 100, "필터링 불필요 (기사 수 적음)"⟩
  else
    let allScored := scoreTitleBatches titleOracle articles 0
    let sorted := sortByKeyDesc (titleComposite now) allScored
    sorted.take titleFilterLimit

theorem length_scoreTitleBatch (titleOracle : ℕ → BatchOutcome TitleFilterItem)
    (batch : List RawNewsArticle) (startIndex : ℕ) :
    (scoreTitleBatch titleOracle batch startIndex).length = batch.length := by
  unfold scoreTitleBatch
  cases titleOracle startIndex <;> simp

theorem length_scoreTitleBatches (titleOracle : ℕ → BatchOutcome TitleFilterItem) :
    ∀ n (articles : List RawNewsArticle) i, articles.length ≤ n →
      (scoreTitleBatches titleOracle articles i).length = articles.length := by
  intro n
  induction n with
  | zero =>
    intro articles i h
    have : articles = [] := List.eq_nil_of_length_eq_zero (Nat.le_zero.mp h)
    subst this
    rw [scoreTitleBatches]
    simp
  | succ n ih =>
    intro articles i h
    rw [scoreTitleBatches]
    split
    next h0 => subst h0; simp
    next h0 =>
      have hpos := List.length_pos.mpr h0
      have hlen : (articles.drop 50).length ≤ n := by
        simp only [List.length_drop]; omega
      rw [List.length_append, length_scoreTitleBatch,
        ih (articles.drop 50) (i + 50) hlen]
      simp only [List.length_take, List.length_drop]
      omega

/-- A concrete article used to instantiate witnesses. -/
def artA : RawNewsArticle :=
  ⟨"Fed raises rates", "https://example.com/a", none, none, none, none, none⟩

/-- C2: if the candidate set is larger than `titleFilterLimit` (30), Stage 1
returns exactly `titleFilterLimit` articles and their composite scores
(`titleScore + recencyBonus`) are non-increasing in output order — for every
scoring-oracle behaviour. -/
theorem filterByTitles_over_limit (titleOracle : ℕ → BatchOutcome TitleFilterItem)
    (now : ℚ) (articles : List RawNewsArticle)
    (h : titleFilterLimit < articles.length) :
    (filterByTitles titleOracle now articles).length = titleFilterLimit ∧
      List.Sorted (· ≥ ·)
        ((filterByTitles titleOracle now articles).map (titleComposite now)) := by
  have hnot : ¬ articles.length ≤ titleFilterLimit := by omega
  constructor
  · rw [filterByTitles, if_neg hnot]
    have hall : (scoreTitleBatches titleOracle articles 0).length = articles.length :=
      length_scoreTitleBatches titleOracle articles.length articles 0 le_rfl
    simp only [List.length_take, sortByKeyDesc_length, hall]
    omega
  · rw [filterByTitles, if_neg hnot]
    exact sorted_map_key
      (List.Pairwise.sublist (List.take_sublist _ _) (sortByKeyDesc_sorted _ _))

/-- Witness for C2 at a concrete input: 31 identical articles with a
failing scoring oracle. -/
theorem filterByTitles_over_limit_witness :
    titleFilterLimit < (List.replicate 31 artA).length ∧
      ((filterByTitles (fun _ => .err) 0 (List.replicate 31 artA)).length =
          titleFilterLimit ∧
        List.Sorted (· ≥ ·)
          ((filterByTitles (fun _ => .err) 0 (List.replicate 31 artA)).map
            (titleComposite 0))) :=
  ⟨by decide, filterByTitles_over_limit (fun _ => .err) 0 _ (by decide)⟩

/-- C7: when the candidate set is at most `titleFilterLimit` (30), Stage 1 is
a pass-through: every article is returned in order with the maximal title
score 100, and the result does not depend on the scoring oracle (no scoring
call is consulted). -/
theorem filterByTitles_bypass (titleOracle : ℕ → BatchOutcome TitleFilterItem)
    (now : ℚ) (articles : List RawNewsArticle)
    (h : articles.length ≤ titleFilterLimit) :
    filterByTitles titleOracle now articles =
        articles.map (fun a => ⟨a, 100, "필터링 불필요 (기사 수 적음)"⟩) ∧
      ∀ titleOracle2, filterByTitles titleOracle2 now articles =
        filterByTitles titleOracle now articles := by
  refine ⟨?_, ?_⟩
  · rw [filterByTitles, if_pos h]
  · intro o2
    rw [filterByTitles, if_pos h, filterByTitles, if_pos h]

/-- Witness for C7 at a concrete input: a single article. -/
theorem filterByTitles_bypass_witness :
    ([artA].length ≤ titleFilterLimit) ∧
      (filterByTitles (fun _ => .err) 0 [artA] =
          [artA].map (fun a => ⟨a, 100, "필터링 불필요 (기사 수 적음)"⟩) ∧
        ∀ titleOracle2, filterByTitles titleOracle2 0 [artA] =
          filterByTitles (fun _ => .err) 0 [artA]) :=
  ⟨by decide, filterByTitles_bypass (fun _ => .err) 0 [artA] (by decide)⟩

/-- C6 counterexample: the claim quantifies over all pairs of publication
times ordered by elapsed time, but a future-dated publication (negative
elapsed time, the parse-error branch) scores 10 while a one-hour-old
publication scores 20, so the score is not non-increasing in elapsed time
over that full domain. With `now = 7200000` ms: `t1 = 10800000` has elapsed
time −1 h, `t2 = 3600000` has elapsed time 1 h. -/
theorem calculateRecencyScore_not_monotone :
    (7200000 - 10800000 : ℚ) ≤ 7200000 - 3600000 ∧
      ¬ (calculateRecencyScore 7200000 (some 3600000) ≤
          calculateRecencyScore 7200000 (some 10800000)) := by
  constructor
  · norm_num
  · simp only [calculateRecencyScore]
    norm_num

/-- C6 (amended): restricted to publications not in the future (elapsed time
≥ 0), `calculateRecencyScore` is non-increasing as elapsed time grows; and on
every input (including future dates and missing dates) its value lies in
[0, 20]. -/
theorem calculateRecencyScore_monotone_bounded :
    (∀ now t1 t2 : ℚ, 0 ≤ now - t1 → now - t1 ≤ now - t2 →
        calculateRecencyScore now (some t2) ≤ calculateRecencyScore now (some t1)) ∧
      ∀ (now : ℚ) (pubDate : Option ℚ),
        0 ≤ calculateRecencyScore now pubDate ∧ calculateRecencyScore now pubDate ≤ 20 := by
  constructor
  · intro now t1 t2 h1 h12
    have hd1 : (0 : ℚ) ≤ (now - t1) / (1000 * 60 * 60) := by positivity
    have hd12 : (now - t1) / (1000 * 60 * 60) ≤ (now - t2) / (1000 * 60 * 60) :=
      (div_le_div_iff_of_pos_right (by norm_num)).mpr h12
    simp only [calculateRecencyScore]
    set d1 := (now - t1) / (1000 * 60 * 60) with hd1def
    set d2 := (now - t2) / (1000 * 60 * 60) with hd2def
    clear_value d1 d2
    clear hd1def hd2def h1 h12
    split_ifs <;> linarith
  · intro now pubDate
    cases pubDate with
    | none => simp [calculateRecencyScore]
    | some t =>
      simp only [calculateRecencyScore]
      split_ifs <;> norm_num

/-- Witness for C6 (amended) at concrete inputs: publications 1 h and 2 h old
(scores 20 and 15), and the bound at the 2 h-old publication. -/
theorem calculateRecencyScore_monotone_bounded_witness :
    ((0 : ℚ) ≤ 7200000 - 3600000 ∧ (7200000 : ℚ) - 3600000 ≤ 7200000 - 0) ∧
      calculateRecencyScore 7200000 (some 0) ≤
        calculateRecencyScore 7200000 (some 3600000) ∧
      (0 ≤ calculateRecencyScore 7200000 (some 0) ∧
        calculateRecencyScore 7200000 (some 0) ≤ 20) :=
  ⟨⟨by norm_num, by norm_num⟩,
    calculateRecencyScore_monotone_bounded.1 7200000 3600000 0
      (by norm_num) (by norm_num),
    calculateRecencyScore_monotone_bounded.2 7200000 (some 0)⟩

/-! ## src/services/news-analyzer.ts : Stage 2 — image extraction and
`filterByQuality` -/

/-- JavaScript truthiness of the optional `imageUrl` string field (both
`undefined` and the empty string are falsy); this is the
`(a) => a.imageUrl` filter predicate and the `!!a.imageUrl` coercion. -/
def strTruthy : Option String → Bool
  | none => false
  | some s => !(s == "")

/-- `extractImagesForArticles(articles)`: the source page of every article is
fetched and the discovered image URL (or `null`) is attached as `imageUrl`.
The `imgOracle` gives the result of `extractImageUrl(article.link)` for each
article. The source processes the list in chunks of 5 concurrent fetches and
pushes the chunk results in order, so the list denotation is an
order-preserving map; the `Promise.allSettled` rejection branch (keep the
original article) is unreachable because `extractImageUrl` catches all its
errors and resolves with `null`. -/
def extractImagesForArticles (imgOracle : TitleFilteredArticle → Option String)
    (articles : List TitleFilteredArticle) : List TitleFilteredArticle :=
  articles.map fun a => { a with imageUrl := imgOracle a }

/-- The composite ranking key of Stage 2:
`qualityScore + calculateRecencyScore(pubDate)`
(`sortByCompositeQualityScore` sorts descending by this key). -/
def qualityComposite (now : ℚ) (a : QualityFilteredArticle) : ℚ :=
  a.qualityScore + calculateRecencyScore now a.pubDate

/-- `scoreQualityBatch(articles)`: one OpenAI call scoring the given group,
whose outcome is given by `qOracle` applied to the group. On a Zod-invalid
response or a thrown error every article gets the default score 50; on a
valid response each article looks up its score by `s.index === i`,
defaulting to 50. `hasValidImage` is always `!!article.imageUrl`. -/
def scoreQualityBatch
    (qOracle : List TitleFilteredArticle → BatchOutcome QualityFilterItem)
    (articles : List TitleFilteredArticle) : List QualityFilteredArticle :=
  if articles = [] then []
  else
    match qOracle articles with
    | .invalid => articles.map fun a => ⟨a, 50, strTruthy a.imageUrl⟩
    | .err => articles.map fun a => ⟨a, 50, strTruthy a.imageUrl⟩
    | .ok items =>
      articles.mapIdx fun i a =>
        match items.find? (fun s => s.index == i) with
        | some s => ⟨a, s.score, strTruthy a.imageUrl⟩
        | none => ⟨a, 50, strTruthy a.imageUrl⟩

/-- `filterByQuality(articles)`: attach images, split into the `hasImage`
and `noImage` groups; if the `hasImage` group already reaches
`qualityFilterLimit`, score it, rank it by composite score and return its
top `qualityFilterLimit`; otherwise return the whole ranked `hasImage` group
followed by the ranked `noImage` group truncated to the remaining slots. -/
def filterByQuality (imgOracle : TitleFilteredArticle → Option String)
    (qOracle : List TitleFilteredArticle → BatchOutcome QualityFilterItem)
    (now : ℚ) (articles : List TitleFilteredArticle) :
    List QualityFilteredArticle :=
  let withImages := extractImagesForArticles imgOracle articles
  let hasImage := withImages.filter fun a => strTruthy a.imageUrl
  let noImage := withImages.filter fun a => !(strTruthy a.imageUrl)
  if qualityFilterLimit ≤ hasImage.length then
    (sortByKeyDesc (qualityComposite now) (scoreQualityBatch qOracle hasImage)).take
      qualityFilterLimit
  else
    let sortedWithImage :=
      sortByKeyDesc (qualityComposite now) (scoreQualityBatch qOracle hasImage)
    let remaining := qualityFilterLimit - hasImage.length
    let sortedNoImage :=
      if 0 < remaining ∧ 0 < noImage.length then
        sortByKeyDesc (qualityComposite now) (scoreQualityBatch qOracle noImage)
      else []
    sortedWithImage ++ sortedNoImage.take remaining

theorem length_scoreQualityBatch
    (qOracle : List TitleFilteredArticle → BatchOutcome QualityFilterItem)
    (articles : List TitleFilteredArticle) :
    (scoreQualityBatch qOracle articles).length = articles.length := by
  unfold scoreQualityBatch
  split
  next h => simp [h]
  next h => cases qOracle articles <;> simp

theorem mem_scoreQualityBatch_imageUrl
    (qOracle : List TitleFilteredArticle → BatchOutcome QualityFilterItem)
    (articles : List TitleFilteredArticle) (b : QualityFilteredArticle)
    (hb : b ∈ scoreQualityBatch qOracle articles) :
    ∃ a ∈ articles, b.imageUrl = a.imageUrl := by
  unfold scoreQualityBatch at hb
  split at hb
  next h => simp at hb
  next h =>
    cases hq : qOracle articles <;> rw [hq] at hb <;> dsimp only at hb
    case ok items =>
      rw [List.mapIdx_eq_enum_map] at hb
      obtain ⟨⟨i, a⟩, ha, hba⟩ := List.mem_map.mp hb
      rw [List.mk_mem_enum_iff_getElem?] at ha
      refine ⟨a, List.getElem?_mem ha, ?_⟩
      dsimp at hba
      split at hba <;> simp [← hba]
    all_goals
      obtain ⟨a, ha, hba⟩ := List.mem_map.mp hb
      exact ⟨a, ha, by simp [← hba]⟩

/-- C1: when at least `qualityFilterLimit` (20) articles come out of image
extraction with a (truthy) image, Stage 2 returns exactly the top 20
image-bearing articles by composite score: the output has length 20, every
output article bears an image, output composite scores are non-increasing,
every output article is drawn from the scored image-bearing group, and every
image-bearing article left out scores no higher than any output article. -/
theorem filterByQuality_image_rich (imgOracle : TitleFilteredArticle → Option String)
    (qOracle : List TitleFilteredArticle → BatchOutcome QualityFilterItem)
    (now : ℚ) (articles : List TitleFilteredArticle)
    (h : qualityFilterLimit ≤
      ((extractImagesForArticles imgOracle articles).filter fun a =>
        strTruthy a.imageUrl).length) :
    (filterByQuality imgOracle qOracle now articles).length = qualityFilterLimit ∧
      (∀ b ∈ filterByQuality imgOracle qOracle now articles,
        strTruthy b.imageUrl = true) ∧
      List.Sorted (· ≥ ·)
        ((filterByQuality imgOracle qOracle now articles).map (qualityComposite now)) ∧
      (∀ b ∈ filterByQuality imgOracle qOracle now articles,
        b ∈ scoreQualityBatch qOracle
          ((extractImagesForArticles imgOracle articles).filter fun a =>
            strTruthy a.imageUrl)) ∧
      ∀ b ∈ filterByQuality imgOracle qOracle now articles,
        ∀ c ∈ (sortByKeyDesc (qualityComposite now)
            (scoreQualityBatch qOracle
              ((extractImagesForArticles imgOracle articles).filter fun a =>
                strTruthy a.imageUrl))).drop qualityFilterLimit,
          qualityComposite now c ≤ qualityComposite now b := by
  have hres : filterByQuality imgOracle qOracle now articles =
      (sortByKeyDesc (qualityComposite now)
        (scoreQualityBatch qOracle
          ((extractImagesForArticles imgOracle articles).filter fun a =>
            strTruthy a.imageUrl))).take qualityFilterLimit := by
    rw [filterByQuality, if_pos h]
  have hmem : ∀ b ∈ filterByQuality imgOracle qOracle now articles,
      b ∈ scoreQualityBatch qOracle
        ((extractImagesForArticles imgOracle articles).filter fun a =>
          strTruthy a.imageUrl) := by
    intro b hb
    rw [hres] at hb
    exact ((sortByKeyDesc_perm _ _).mem_iff).mp (List.mem_of_mem_take hb)
  refine ⟨?_, ?_, ?_, hmem, ?_⟩
  · rw [hres, List.length_take, sortByKeyDesc_length, length_scoreQualityBatch]
    omega
  · intro b hb
    obtain ⟨a, ha, haeq⟩ := mem_scoreQualityBatch_imageUrl _ _ _ (hmem b hb)
    rw [haeq]
    exact (List.mem_filter.mp ha).2
  · rw [hres]
    exact sorted_map_key
      (List.Pairwise.sublist (List.take_sublist _ _) (sortByKeyDesc_sorted _ _))
  · intro b hb c hc
    have hsorted := sortByKeyDesc_sorted (qualityComposite now)
      (scoreQualityBatch qOracle
        ((extractImagesForArticles imgOracle articles).filter fun a =>
          strTruthy a.imageUrl))
    rw [← List.take_append_drop qualityFilterLimit
      (sortByKeyDesc (qualityComposite now) _), List.Sorted,
      List.pairwise_append] at hsorted
    rw [hres] at hb
    exact hsorted.2.2 b hb c hc

/-- A concrete title-filtered article used to instantiate witnesses. -/
def tfArtA : TitleFilteredArticle := ⟨artA, 80, "major policy news"⟩

/-- Witness for C1 at a concrete input: 20 identical articles whose image
extraction always succeeds, with a failing quality-scoring oracle. -/
theorem filterByQuality_image_rich_witness :
    qualityFilterLimit ≤
        ((extractImagesForArticles (fun _ => some "https://example.com/i.png")
          (List.replicate 20 tfArtA)).filter fun a => strTruthy a.imageUrl).length ∧
      ((filterByQuality (fun _ => some "https://example.com/i.png") (fun _ => .err) 0
            (List.replicate 20 tfArtA)).length = qualityFilterLimit ∧
        (∀ b ∈ filterByQuality (fun _ => some "https://example.com/i.png")
            (fun _ => .err) 0 (List.replicate 20 tfArtA),
          strTruthy b.imageUrl = true) ∧
        List.Sorted (· ≥ ·)
          ((filterByQuality (fun _ => some "https://example.com/i.png")
            (fun _ => .err) 0 (List.replicate 20 tfArtA)).map (qualityComposite 0)) ∧
        (∀ b ∈ filterByQuality (fun _ => some "https://example.com/i.png")
            (fun _ => .err) 0 (List.replicate 20 tfArtA),
          b ∈ scoreQualityBatch (fun _ => .err)
            ((extractImagesForArticles (fun _ => some "https://example.com/i.png")
              (List.replicate 20 tfArtA)).filter fun a => strTruthy a.imageUrl)) ∧
        ∀ b ∈ filterByQuality (fun _ => some "https://example.com/i.png")
            (fun _ => .err) 0 (List.replicate 20 tfArtA),
          ∀ c ∈ (sortByKeyDesc (qualityComposite 0)
              (scoreQualityBatch (fun _ => .err)
                ((extractImagesForArticles (fun _ => some "https://example.com/i.png")
                  (List.replicate 20 tfArtA)).filter fun a =>
                  strTruthy a.imageUrl))).drop qualityFilterLimit,
            qualityComposite 0 c ≤ qualityComposite 0 b) :=
  ⟨by decide,
    filterByQuality_image_rich (fun _ => some "https://example.com/i.png")
      (fun _ => .err) 0 (List.replicate 20 tfArtA) (by decide)⟩

/-- C10: for every outcome of image extraction and quality scoring, Stage 2
returns at most `qualityFilterLimit` (20) articles; and whenever the
image-bearing group is smaller than the limit, every scored image-bearing
article appears in the output. -/
theorem filterByQuality_cap (imgOracle : TitleFilteredArticle → Option String)
    (qOracle : List TitleFilteredArticle → BatchOutcome QualityFilterItem)
    (now : ℚ) (articles : List TitleFilteredArticle) :
    (filterByQuality imgOracle qOracle now articles).length ≤ qualityFilterLimit ∧
      (((extractImagesForArticles imgOracle articles).filter fun a =>
            strTruthy a.imageUrl).length < qualityFilterLimit →
        ∀ b ∈ scoreQualityBatch qOracle
            ((extractImagesForArticles imgOracle articles).filter fun a =>
              strTruthy a.imageUrl),
          b ∈ filterByQuality imgOracle qOracle now articles) := by
  rw [filterByQuality]
  split
  next hge =>
    refine ⟨?_, ?_⟩
    · rw [List.length_take]
      omega
    · intro hlt
      omega
  next hge =>
    have hlt : ((extractImagesForArticles imgOracle articles).filter fun a =>
        strTruthy a.imageUrl).length < qualityFilterLimit := by omega
    refine ⟨?_, ?_⟩
    · rw [List.length_append, sortByKeyDesc_length, length_scoreQualityBatch,
        List.length_take]
      omega
    · intro _ b hb
      exact List.mem_append_left _ (((sortByKeyDesc_perm _ _).mem_iff).mpr hb)

/-- Witness for C10 at a concrete input: a single article whose image
extraction succeeds (image group of size 1 < 20). -/
theorem filterByQuality_cap_witness :
    (filterByQuality (fun _ => some "https://example.com/i.png") (fun _ => .err) 0
        [tfArtA]).length ≤ qualityFilterLimit ∧
      ((extractImagesForArticles (fun _ => some "https://example.com/i.png")
          [tfArtA]).filter fun a => strTruthy a.imageUrl).length < qualityFilterLimit ∧
      ∀ b ∈ scoreQualityBatch (fun _ => .err)
          ((extractImagesForArticles (fun _ => some "https://example.com/i.png")
            [tfArtA]).filter fun a => strTruthy a.imageUrl),
        b ∈ filterByQuality (fun _ => some "https://example.com/i.png")
          (fun _ => .err) 0 [tfArtA] :=
  ⟨(filterByQuality_cap (fun _ => some "https://example.com/i.png") (fun _ => .err) 0
      [tfArtA]).1,
    by decide,
    fun b hb =>
      (filterByQuality_cap (fun _ => some "https://example.com/i.png") (fun _ => .err) 0
        [tfArtA]).2 (by decide) b hb⟩

/-! ## src/utils/index.ts : `withRetry`

Errors are represented by their message string (the classification in
`isNonRetryableError` reads only `error.message`). The outcome of the k-th
call of `fn` is given by `outcomes k`. The returned `RetryTrace` records the
final result (`return await fn()` or the thrown `lastError`), the number of
attempts made, and the backoff delays slept between attempts. -/

/-- `List Char` prefix test (character-wise `==`), the building block for the
`String.prototype.includes` / `startsWith` checks below. -/
def charsPrefix : List Char → List Char → Bool
  | [], _ => true
  | _ :: _, [] => false
  | a :: as, b :: bs => a == b && charsPrefix as bs

/-- `haystack` contains `pat` as a contiguous substring
(`String.prototype.includes`). -/
def charsContains (pat : List Char) : List Char → Bool
  | [] => charsPrefix pat []
  | c :: cs => charsPrefix pat (c :: cs) || charsContains pat cs

/-- `message.includes(pat)`. -/
def strIncludes (message pat : String) : Bool :=
  charsContains pat.data message.data

/-- `message.startsWith(pat)`. -/
def strStartsWith (message pat : String) : Bool :=
  charsPrefix pat.data message.data

/-- `isNonRetryableError(error)`: OpenAI quota exhaustion, 401 auth failure,
or a 400 malformed request — retrying is pointless, fail immediately. -/
def isNonRetryableError (message : String) : Bool :=
  if strIncludes message "exceeded your current quota" then true
  else if strIncludes message "insufficient_quota" then true
  else if strIncludes message "401" && strIncludes message "Incorrect API key" then true
  else if strStartsWith message "400" then true
  else false

/-- `options.shouldRetry`: the guard `shouldRetry && !shouldRetry(lastError)`
(immediate failure when a predicate is supplied and rejects the error). -/
def shouldRetryBlocks (shouldRetry : Option (String → Bool)) (message : String) : Bool :=
  match shouldRetry with
  | none => false
  | some p => !(p message)

/-- The observable behaviour of one `withRetry` run. -/
structure RetryTrace (α : Type) where
  result : Except String α
  attempts : ℕ
  delays : List ℚ

/-- The loop body of `withRetry` from loop index `attempt`, with `fuel` the
number of further attempts still allowed (`retries - attempt`). On an error
that is non-retryable, or rejected by `shouldRetry`, or on the last allowed
attempt (`attempt === retries` breaks out of the loop), the error is thrown;
otherwise the loop sleeps `Math.min(delay * 2 ** attempt, maxDelay)` and
retries. -/
def withRetryGo (outcomes : ℕ → Except String α) (delay maxDelay : ℚ)
    (shouldRetry : Option (String → Bool)) : ℕ → ℕ → RetryTrace α
  | attempt, fuel =>
    match outcomes attempt with
    | .ok a => ⟨.ok a, 1, []⟩
    | .error e =>
      if isNonRetryableError e then ⟨.error e, 1, []⟩
      else if shouldRetryBlocks shouldRetry e then ⟨.error e, 1, []⟩
      else
        match fuel with
        | 0 => ⟨.error e, 1, []⟩
        | fuel' + 1 =>
          let backoffDelay := min (delay * 2 ^ attempt) maxDelay
          let rest := withRetryGo outcomes delay maxDelay shouldRetry (attempt + 1) fuel'
          ⟨rest.result, rest.attempts + 1, backoffDelay :: rest.delays⟩

/-- `withRetry(fn, {retries, delay, maxDelay, shouldRetry})`; the source
defaults are `retries = 3`, `delay = 1000`, `maxDelay = 5000`. The loop runs
`for (let attempt = 0; attempt <= retries; attempt++)`. -/
def withRetry (outcomes : ℕ → Except String α) (retries : ℕ)
    (delay maxDelay : ℚ) (shouldRetry : Option (String → Bool)) : RetryTrace α :=
  withRetryGo outcomes delay maxDelay shouldRetry 0 retries

/-- C3 counterexample: with the configured default `retries = 3` (the
`maxAttempts` knob of the spec contract `execute(op, ...)` with maxAttempts, baseDelay,
maxDelay) and an operation that fails with a transient error
(`ETIMEDOUT`) on every attempt, the executor does not make exactly 3
attempts — it makes 4 (one initial attempt plus 3 retries). -/
theorem withRetry_attempts_not_maxAttempts :
    ¬ ((withRetry (fun _ => (Except.error "ETIMEDOUT" : Except String Unit))
          3 1000 5000 none).attempts = 3) ∧
      (withRetry (fun _ => (Except.error "ETIMEDOUT" : Except String Unit))
        3 1000 5000 none).attempts = 4 := by
  constructor
  · decide
  · decide

theorem withRetryGo_all_transient (outcomes : ℕ → Except String α)
    (delay maxDelay : ℚ) (shouldRetry : Option (String → Bool)) (es : ℕ → String) :
    ∀ fuel attempt,
      (∀ k, attempt ≤ k → k ≤ attempt + fuel → outcomes k = .error (es k)) →
      (∀ k, attempt ≤ k → k ≤ attempt + fuel → isNonRetryableError (es k) = false) →
      (∀ k, attempt ≤ k → k ≤ attempt + fuel →
        shouldRetryBlocks shouldRetry (es k) = false) →
      withRetryGo outcomes delay maxDelay shouldRetry attempt fuel =
        ⟨.error (es (attempt + fuel)), fuel + 1,
          (List.range fuel).map fun j => min (delay * 2 ^ (attempt + j)) maxDelay⟩ := by
  intro fuel
  induction fuel with
  | zero =>
    intro attempt hout htrans hblock
    rw [withRetryGo, hout attempt le_rfl (by omega)]
    simp [htrans attempt le_rfl (by omega), hblock attempt le_rfl (by omega)]
  | succ fuel ih =>
    intro attempt hout htrans hblock
    rw [withRetryGo, hout attempt le_rfl (by omega)]
    simp only [htrans attempt le_rfl (by omega), hblock attempt le_rfl (by omega),
      Bool.false_eq_true, if_false]
    rw [ih (attempt + 1) (fun k h1 h2 => hout k (by omega) (by omega))
      (fun k h1 h2 => htrans k (by omega) (by omega))
      (fun k h1 h2 => hblock k (by omega) (by omega))]
    have harg : attempt + 1 + fuel = attempt + (fuel + 1) := by omega
    have hd : (List.range (fuel + 1)).map
          (fun j => min (delay * 2 ^ (attempt + j)) maxDelay) =
        min (delay * 2 ^ attempt) maxDelay ::
          (List.range fuel).map
            (fun j => min (delay * 2 ^ (attempt + 1 + j)) maxDelay) := by
      rw [List.range_succ_eq_map, List.map_cons, List.map_map]
      refine congrArg₂ _ (by norm_num) (List.map_congr_left ?_)
      intro j hj
      have : attempt + 1 + j = attempt + (j + 1) := by omega
      simp [Function.comp, this]
    rw [hd, harg]

/-- C3 (amended): if the operation fails with a fatal-classified error on its
first attempt, exactly one attempt is made and the error is raised
immediately with no backoff sleep; if the operation fails with a transient
(retryable, not rejected by `shouldRetry`) error on every attempt, exactly
`retries + 1` attempts are made — one initial attempt plus the configured
number of retries, not `retries` total — and the delay slept before the k-th
retry is `min(delay * 2 ^ (k - 1), maxDelay)`. -/
theorem withRetry_fatal_once_transient_exhausts (outcomes : ℕ → Except String α)
    (retries : ℕ) (delay maxDelay : ℚ) (shouldRetry : Option (String → Bool))
    (e : String) (es : ℕ → String) :
    (outcomes 0 = .error e → isNonRetryableError e = true →
      withRetry outcomes retries delay maxDelay shouldRetry = ⟨.error e, 1, []⟩) ∧
      ((∀ k, k ≤ retries → outcomes k = .error (es k)) →
        (∀ k, k ≤ retries → isNonRetryableError (es k) = false) →
        (∀ k, k ≤ retries → shouldRetryBlocks shouldRetry (es k) = false) →
        withRetry outcomes retries delay maxDelay shouldRetry =
          ⟨.error (es retries), retries + 1,
            (List.range retries).map fun k => min (delay * 2 ^ k) maxDelay⟩) := by
  constructor
  · intro hout hfatal
    rw [withRetry, withRetryGo, hout]
    simp [hfatal]
  · intro hout htrans hblock
    rw [withRetry, withRetryGo_all_transient outcomes delay maxDelay shouldRetry es
      retries 0 (fun k h1 h2 => hout k (by omega))
      (fun k h1 h2 => htrans k (by omega)) (fun k h1 h2 => hblock k (by omega))]
    simp

/-- Witness for C3 (amended) at concrete inputs: a quota-exhaustion error is
raised after exactly one attempt; an `ETIMEDOUT` error on every attempt
exhausts all 4 attempts (`retries = 3`) with delays 1000, 2000, 4000 ms. -/
theorem withRetry_fatal_once_transient_exhausts_witness :
    (withRetry (fun _ => (Except.error "insufficient_quota" : Except String Unit))
        3 1000 5000 none = ⟨.error "insufficient_quota", 1, []⟩) ∧
      withRetry (fun _ => (Except.error "ETIMEDOUT" : Except String Unit))
        3 1000 5000 none =
        ⟨.error "ETIMEDOUT", 3 + 1,
          (List.range 3).map fun k => min ((1000 : ℚ) * 2 ^ k) 5000⟩ :=
  ⟨(withRetry_fatal_once_transient_exhausts
      (fun _ => (Except.error "insufficient_quota" : Except String Unit))
      3 1000 5000 none "insufficient_quota" (fun _ => "insufficient_quota")).1
      rfl (by decide),
    (withRetry_fatal_once_transient_exhausts
      (fun _ => (Except.error "ETIMEDOUT" : Except String Unit))
      3 1000 5000 none "ETIMEDOUT" (fun _ => "ETIMEDOUT")).2
      (fun _ _ => rfl) (fun _ _ => by decide) (fun _ _ => rfl)⟩

/-! ## src/schemas/news-analysis.ts : `NewsAnalysisResultSchema`

Enumerations and nested objects become inductive types / structures; the
Zod refinements that the type system cannot carry (`.min`/`.max` bounds on
strings, arrays and numbers) are collected in the `…SchemaOK` predicates
below. `z.number().int()` fields are modelled as `ℤ`. -/

inductive TimeHorizon | short | medium | long
deriving DecidableEq

inductive SentimentOverall | positive | negative | neutral | mixed
deriving DecidableEq

inductive Category | economy | finance | business | markets | policy | trade
deriving DecidableEq

structure SoWhat where
  main_point : String
  market_signal : String
  time_horizon : TimeHorizon
deriving DecidableEq

structure InvestorImpact where
  summary : String
  action_items : List String
  sectors_affected : List String
deriving DecidableEq

structure WorkerImpact where
  summary : String
  industries_affected : List String
  job_outlook : String
deriving DecidableEq

structure ConsumerImpact where
  summary : String
  price_impact : String
  spending_advice : String
deriving DecidableEq

structure ImpactAnalysis where
  investors : InvestorImpact
  workers : WorkerImpact
  consumers : ConsumerImpact
deriving DecidableEq

structure RelatedContext where
  background : String
  related_events : List String
  what_to_watch : String
deriving DecidableEq

structure Sentiment where
  overall : SentimentOverall
  confidence : ℚ
deriving DecidableEq

structure NewsAnalysisResult where
  headline_summary : String
  so_what : SoWhat
  impact_analysis : ImpactAnalysis
  related_context : RelatedContext
  keywords : List String
  category : Category
  sentiment : Sentiment
  importance_score : ℤ
deriving DecidableEq

/-- The `.min` length refinement of `SoWhatSchema`. -/
def soWhatSchemaOK (s : SoWhat) : Prop :=
  200 ≤ s.main_point.length ∧ 120 ≤ s.market_signal.length

/-- The `.min` length refinements of the three parts of `ImpactAnalysisSchema`. -/
def impactAnalysisSchemaOK (i : ImpactAnalysis) : Prop :=
  150 ≤ i.investors.summary.length ∧ 150 ≤ i.workers.summary.length ∧
    80 ≤ i.workers.job_outlook.length ∧ 150 ≤ i.consumers.summary.length ∧
    80 ≤ i.consumers.price_impact.length ∧ 80 ≤ i.consumers.spending_advice.length

/-- The `.min` length refinements of `RelatedContextSchema`. -/
def relatedContextSchemaOK (r : RelatedContext) : Prop :=
  150 ≤ r.background.length ∧ 100 ≤ r.what_to_watch.length

/-- Full refinement of `NewsAnalysisResultSchema`: everything
`NewsAnalysisResultSchema.parse` checks beyond the shape carried by the
types (string minimum lengths, 3–7 keywords, confidence in [0, 1],
importance score an integer in [1, 10]). -/
def newsAnalysisSchemaOK (r : NewsAnalysisResult) : Prop :=
  150 ≤ r.headline_summary.length ∧ soWhatSchemaOK r.so_what ∧
    impactAnalysisSchemaOK r.impact_analysis ∧
    relatedContextSchemaOK r.related_context ∧
    3 ≤ r.keywords.length ∧ r.keywords.length ≤ 7 ∧
    0 ≤ r.sentiment.confidence ∧ r.sentiment.confidence ≤ 1 ∧
    1 ≤ r.importance_score ∧ r.importance_score ≤ 10

instance (s : SoWhat) : Decidable (soWhatSchemaOK s) := by
  unfold soWhatSchemaOK; infer_instance

instance (i : ImpactAnalysis) : Decidable (impactAnalysisSchemaOK i) := by
  unfold impactAnalysisSchemaOK; infer_instance

instance (r : RelatedContext) : Decidable (relatedContextSchemaOK r) := by
  unfold relatedContextSchemaOK; infer_instance

instance (r : NewsAnalysisResult) : Decidable (newsAnalysisSchemaOK r) := by
  unfold newsAnalysisSchemaOK; infer_instance

/-! ## src/services/news-analyzer.ts : Stage 3 — `analyzeArticleWithAI` and
`analyzeArticlesInParallel` -/

/-- `AnalyzedNewsArticle extends RawNewsArticle` — the record persisted for
each successfully analyzed article. -/
structure AnalyzedNewsArticle where
  title : String
  link : String
  description : Option String
  pubDate : Option ℚ
  source : Option String
  region : Option String
  imageUrl : Option String
  headlineSummary : Option String
  soWhat : Option SoWhat
  impactAnalysis : Option ImpactAnalysis
  relatedContext : Option RelatedContext
  keywords : Option (List String)
  category : Option Category
  sentiment : Option Sentiment
  importanceScore : Option ℤ
deriving DecidableEq

/-- The analysis fields of an `AnalyzedNewsArticle` are all present and
satisfy the declared `NewsAnalysisResultSchema` refinements. -/
def analyzedSchemaOK (b : AnalyzedNewsArticle) : Prop :=
  match b.headlineSummary, b.soWhat, b.impactAnalysis, b.relatedContext,
      b.keywords, b.category, b.sentiment, b.importanceScore with
  | some hs, some sw, some ia, some rc, some kw, some c, some st, some sc =>
    newsAnalysisSchemaOK ⟨hs, sw, ia, rc, kw, c, st, sc⟩
  | _, _, _, _, _, _, _, _ => False

/-- The `.map(({article, analysis}) => ({...}))` projection of
`analyzeArticlesInParallel` building the persisted record. -/
def mkAnalyzed (article : QualityFilteredArticle) (analysis : NewsAnalysisResult) :
    AnalyzedNewsArticle :=
  ⟨article.title, article.link, article.description, article.pubDate,
    article.source, article.region, article.imageUrl,
    some analysis.headline_summary, some analysis.so_what,
    some analysis.impact_analysis, some analysis.related_context,
    some analysis.keywords, some analysis.category, some analysis.sentiment,
    some analysis.importance_score⟩

/-- `analyzeArticlesInParallel(articles)`. `analysisOracle` is the outcome of
`analyzeArticleWithAI(article)` for each article: `some parsed` when the call
succeeded and `NewsAnalysisResultSchema.parse` accepted the response, `none`
when the call threw or the response failed schema validation (the function
catches every error and returns `null`). Articles whose analysis is `null`
are filtered out; the survivors are projected into `AnalyzedNewsArticle`. -/
def analyzeArticlesInParallel
    (analysisOracle : QualityFilteredArticle → Option NewsAnalysisResult)
    (articles : List QualityFilteredArticle) : List AnalyzedNewsArticle :=
  let results := articles.map fun article => (article, analysisOracle article)
  results.filterMap fun r =>
    match r.2 with
    | some analysis => some (mkAnalyzed r.1 analysis)
    | none => none

/-- C4: if the analysis oracle only ever returns schema-valid parses (which
is what `NewsAnalysisResultSchema.parse` guarantees — it throws otherwise),
then every article of the Stage-3 output is the projection of some input
article with a successful, schema-valid analysis (so an article whose
response failed validation is absent and no placeholder is synthesized), and
the analysis fields of every output satisfy the declared schema refinements. -/
theorem analyzeArticlesInParallel_schema_valid
    (analysisOracle : QualityFilteredArticle → Option NewsAnalysisResult)
    (articles : List QualityFilteredArticle)
    (hOracle : ∀ a r, analysisOracle a = some r → newsAnalysisSchemaOK r) :
    (∀ b ∈ analyzeArticlesInParallel analysisOracle articles,
      ∃ a ∈ articles, ∃ r, analysisOracle a = some r ∧ b = mkAnalyzed a r) ∧
      ∀ b ∈ analyzeArticlesInParallel analysisOracle articles, analyzedSchemaOK b := by
  have hmem : ∀ b ∈ analyzeArticlesInParallel analysisOracle articles,
      ∃ a ∈ articles, ∃ r, analysisOracle a = some r ∧ b = mkAnalyzed a r := by
    intro b hb
    unfold analyzeArticlesInParallel at hb
    obtain ⟨p, hpair, hsome⟩ := List.mem_filterMap.mp hb
    obtain ⟨a', ha', heq⟩ := List.mem_map.mp hpair
    subst heq
    dsimp at hsome
    cases hoa : analysisOracle a' <;> rw [hoa] at hsome
    · exact absurd hsome (by simp)
    next r =>
      refine ⟨a', ha', r, hoa, ?_⟩
      simpa using hsome.symm
  refine ⟨hmem, ?_⟩
  intro b hb
  obtain ⟨a, ha, r, hr, hbr⟩ := hmem b hb
  subst hbr
  show analyzedSchemaOK (mkAnalyzed a r)
  unfold analyzedSchemaOK mkAnalyzed
  exact hOracle a r hr

/-- A string of `n` copies of `'a'`, for building schema-valid samples. -/
def longStr (n : ℕ) : String := String.mk (List.replicate n 'a')

/-- A concrete schema-valid analysis result. -/
def sampleAnalysis : NewsAnalysisResult :=
  ⟨longStr 200, ⟨longStr 200, longStr 120, .medium⟩,
    ⟨⟨longStr 150, [], []⟩, ⟨longStr 150, [], longStr 80⟩,
      ⟨longStr 150, longStr 80, longStr 80⟩⟩,
    ⟨longStr 150, [], longStr 100⟩,
    ["연준", "금리", "인플레이션"], .policy, ⟨.negative, 1⟩, 9⟩

/-- A concrete quality-filtered article used to instantiate witnesses. -/
def qfArtA : QualityFilteredArticle := ⟨tfArtA, 90, true⟩

set_option maxRecDepth 4000 in
/-- Witness for C4 at a concrete input: one article whose analysis call
returns a concrete schema-valid result. -/
theorem analyzeArticlesInParallel_schema_valid_witness :
    (∀ (a : QualityFilteredArticle) r,
        (fun _ => some sampleAnalysis :
          QualityFilteredArticle → Option NewsAnalysisResult) a = some r →
        newsAnalysisSchemaOK r) ∧
      ((∀ b ∈ analyzeArticlesInParallel (fun _ => some sampleAnalysis) [qfArtA],
        ∃ a ∈ [qfArtA], ∃ r,
          (fun _ => some sampleAnalysis :
            QualityFilteredArticle → Option NewsAnalysisResult) a = some r ∧
            b = mkAnalyzed a r) ∧
        ∀ b ∈ analyzeArticlesInParallel (fun _ => some sampleAnalysis) [qfArtA],
          analyzedSchemaOK b) :=
  ⟨fun _ r h => by cases h; decide,
    analyzeArticlesInParallel_schema_valid (fun _ => some sampleAnalysis) [qfArtA]
      (fun _ r h => by cases h; decide)⟩

/-! ## src/services/evidence-validator.ts

The evidence items cited by a daily report are checked against the daily
article corpus. `EvidenceItem.articleId` (`number | undefined` in the
source) is `Option ℤ`; the corpus records keep only the fields the validator
reads for its logic (`id`) and for the relevance prompt (`title` — the other
prompt-only fields are omitted). The AI relevance check
(`checkEvidenceRelevance`) is modelled by `relOracle`, returning `none` when
the call throws (the catch branch) and the parsed
`EvidenceRelevanceAIResponseSchema` value otherwise. -/

/-- `EvidenceItem`: `{text, articleId?, source?}`. -/
structure EvidenceItem where
  text : String
  articleId : Option ℤ
  source : Option String
deriving DecidableEq

/-- One key insight of a report; only its `evidence` array is read by the
validator. -/
structure KeyInsight where
  evidence : List EvidenceItem
deriving DecidableEq

/-- `DailyReportData`, restricted to the `keyInsights` section read by
`extractAllEvidences` (the other report sections are not consulted). -/
structure DailyReportData where
  keyInsights : List KeyInsight
deriving DecidableEq

/-- `NewsRecord`, restricted to the fields the validator reads. -/
structure NewsRecord where
  id : ℤ
  title : String
deriving DecidableEq

/-- Parsed `EvidenceRelevanceAIResponseSchema`: `{relevanceScore, reasoning}`. -/
structure RelevanceResult where
  relevanceScore : ℚ
  reasoning : String
deriving DecidableEq

/-- `EvidenceValidationItemSchema`. -/
structure EvidenceValidationItem where
  evidenceText : String
  articleId : Option ℤ
  isValid : Bool
  reason : String
  relevanceScore : Option ℚ
deriving DecidableEq

/-- `EvidenceValidationSchema` (the `summary` log string is omitted). -/
structure EvidenceValidation where
  totalEvidences : ℕ
  validCount : ℕ
  invalidCount : ℕ
  validationRate : ℚ
  details : List EvidenceValidationItem
deriving DecidableEq

/-- `extractAllEvidences(report)`: concatenate the evidence arrays of all key
insights, in order. -/
def extractAllEvidences (report : DailyReportData) : List EvidenceItem :=
  report.keyInsights.flatMap fun insight => insight.evidence

/-- JavaScript truthiness of the optional numeric `articleId`
(`undefined` and `0` are falsy). -/
def idTruthy : Option ℤ → Bool
  | none => false
  | some n => !(n == 0)

/-- Result of `validateArticleIdExists`. -/
structure IdCheck where
  isValid : Bool
  reason : String
deriving DecidableEq

/-- `validateArticleIdExists(articleId, articleIds)`: the guard
`if (!articleId)` treats both a missing id and the falsy id `0` as "no
article id" (external-source evidence, valid); otherwise the id must be in
the corpus id set. -/
def validateArticleIdExists (articleId : Option ℤ) (articleIds : List ℤ) : IdCheck :=
  match articleId with
  | none => ⟨true, "기사 ID가 없는 외부 출처 근거"⟩
  | some n =>
    if n == 0 then ⟨true, "기사 ID가 없는 외부 출처 근거"⟩
    else if articleIds.contains n then ⟨true, "유효한 기사 ID"⟩
    else ⟨false, "존재하지 않는 기사 ID: " ++ toString n⟩

/-- The per-evidence body of the loop in `validateEvidence`. Returns `none` only
in the unreachable branch where the id is in the corpus id set but
`articlesMap.get` finds no record (the loop pushes nothing there); `Map.get`
returns the last binding for a duplicated key, hence the `reverse`. -/
def stepEvidence (relOracle : String → NewsRecord → Option RelevanceResult)
    (checkRelevance : Bool) (relevanceThreshold : ℚ)
    (articleIds : List ℤ) (articles : List NewsRecord)
    (evidence : EvidenceItem) : Option EvidenceValidationItem :=
  let idValidation := validateArticleIdExists evidence.articleId articleIds
  if !idValidation.isValid then
    some ⟨evidence.text, evidence.articleId, false, idValidation.reason, none⟩
  else if checkRelevance && idTruthy evidence.articleId then
    match evidence.articleId with
    | some aid =>
      match (articles.reverse).find? (fun a => a.id == aid) with
      | some article =>
        match relOracle evidence.text article with
        | some relevance =>
          if relevanceThreshold ≤ relevance.relevanceScore then
            some ⟨evidence.text, some aid, true, relevance.reasoning,
              some relevance.relevanceScore⟩
          else
            some ⟨evidence.text, some aid, false,
              "관련성 점수 미달: " ++ relevance.reasoning,
              some relevance.relevanceScore⟩
        | none =>
          some ⟨evidence.text, some aid, true,
            "AI 관련성 검증 실패, 기사 ID 유효성만 확인됨", none⟩
      | none => none
    | none => none
  else
    some ⟨evidence.text, evidence.articleId, true, idValidation.reason, none⟩

/-- `Math.round(x * 10) / 10` — rounding to one decimal place
(JS `Math.round` rounds half toward +∞, as does the Mathlib `round`). -/
def round1 (x : ℚ) : ℚ := ((round (x * 10) : ℤ) : ℚ) / 10

/-- `validateEvidence(report, articles, options)`: run the per-evidence check
over every extracted evidence item, count valid/invalid pushes, and report
the validation rate `validCount / totalEvidences * 100` (100 when there is
no evidence), rounded to one decimal. -/
def validateEvidence (relOracle : String → NewsRecord → Option RelevanceResult)
    (report : DailyReportData) (articles : List NewsRecord)
    (checkRelevance : Bool) (relevanceThreshold : ℚ) : EvidenceValidation :=
  let evidences := extractAllEvidences report
  let articleIds := articles.map fun a => a.id
  let validationResults := evidences.filterMap
    (stepEvidence relOracle checkRelevance relevanceThreshold articleIds articles)
  let validCount := validationResults.countP fun d => d.isValid
  let invalidCount := validationResults.countP fun d => !d.isValid
  let totalEvidences := evidences.length
  let validationRate : ℚ :=
    if 0 < totalEvidences then ((validCount : ℚ) / (totalEvidences : ℚ)) * 100
    else 100
  ⟨totalEvidences, validCount, invalidCount, round1 validationRate,
    validationResults⟩

/-- C9: for an evidence item whose `articleId` is `0`, the validator treats
the JavaScript-falsy id as "no article id": the item is recorded valid with
the external-source reason, the outcome is independent of both the corpus
and the relevance oracle (no membership check and no semantic call decide
it), and that detail record appears in the `validateEvidence` output
whenever the item occurs in the report. -/
theorem validateEvidence_zero_id_valid
    (relOracle : String → NewsRecord → Option RelevanceResult)
    (checkRelevance : Bool) (relevanceThreshold : ℚ)
    (articleIds : List ℤ) (articles : List NewsRecord)
    (e : EvidenceItem) (h : e.articleId = some 0) :
    stepEvidence relOracle checkRelevance relevanceThreshold articleIds articles e =
        some ⟨e.text, some 0, true, "기사 ID가 없는 외부 출처 근거", none⟩ ∧
      (∀ relOracle2 articleIds2 articles2,
        stepEvidence relOracle2 checkRelevance relevanceThreshold articleIds2
            articles2 e =
          stepEvidence relOracle checkRelevance relevanceThreshold articleIds
            articles e) ∧
      ∀ report, e ∈ extractAllEvidences report →
        (⟨e.text, some 0, true, "기사 ID가 없는 외부 출처 근거", none⟩ :
            EvidenceValidationItem) ∈
          (validateEvidence relOracle report articles checkRelevance
            relevanceThreshold).details := by
  have hstep : ∀ (ro : String → NewsRecord → Option RelevanceResult)
      (ids : List ℤ) (arts : List NewsRecord),
      stepEvidence ro checkRelevance relevanceThreshold ids arts e =
        some ⟨e.text, some 0, true, "기사 ID가 없는 외부 출처 근거", none⟩ := by
    intro ro ids arts
    simp [stepEvidence, validateArticleIdExists, idTruthy, h]
  refine ⟨hstep relOracle articleIds articles, ?_, ?_⟩
  · intro ro2 ids2 arts2
    rw [hstep ro2 ids2 arts2, hstep relOracle articleIds articles]
  · intro report hrep
    exact List.mem_filterMap.mpr ⟨e, hrep, hstep relOracle _ articles⟩

/-- Witness for C9 at a concrete input: an evidence item with `articleId = 0`
in a one-insight report, against a corpus whose only id is 1. -/
theorem validateEvidence_zero_id_valid_witness :
    (⟨"외부 기관 발표", some 0, none⟩ : EvidenceItem).articleId = some 0 ∧
      (stepEvidence (fun _ _ => none) true 5 [1] [⟨1, "기사"⟩]
          ⟨"외부 기관 발표", some 0, none⟩ =
        some ⟨"외부 기관 발표", some 0, true, "기사 ID가 없는 외부 출처 근거", none⟩ ∧
        (∀ relOracle2 articleIds2 articles2,
          stepEvidence relOracle2 true 5 articleIds2 articles2
              ⟨"외부 기관 발표", some 0, none⟩ =
            stepEvidence (fun _ _ => none) true 5 [1] [⟨1, "기사"⟩]
              ⟨"외부 기관 발표", some 0, none⟩) ∧
        ∀ report, (⟨"외부 기관 발표", some 0, none⟩ : EvidenceItem) ∈
            extractAllEvidences report →
          (⟨"외부 기관 발표", some 0, true, "기사 ID가 없는 외부 출처 근거", none⟩ :
              EvidenceValidationItem) ∈
            (validateEvidence (fun _ _ => none) report [⟨1, "기사"⟩] true 5).details) :=
  ⟨rfl, validateEvidence_zero_id_valid (fun _ _ => none) true 5 [1] [⟨1, "기사"⟩]
    ⟨"외부 기관 발표", some 0, none⟩ rfl⟩

/-- C5 counterexample: an evidence item whose `articleId` is set to `0` — an
id that is never a member of the corpus id set — is recorded *valid* (the
falsy-id branch), so "articleId set but not in the corpus implies
`isValid = false`" fails as stated. -/
theorem validateEvidence_set_id_not_in_corpus_counterexample :
    ((validateEvidence (fun _ _ => none) ⟨[⟨[⟨"근거", some 0, none⟩]⟩]⟩
          [⟨1, "기사"⟩] true 5).details.map fun d => d.isValid) = [true] ∧
      ¬ ((0 : ℤ) ∈ ([⟨1, "기사"⟩] : List NewsRecord).map fun a => a.id) := by
  constructor
  · decide
  · decide

/-- C5 (amended): for an evidence item whose `articleId` is set *and
nonzero* but not a member of the corpus id set of the day, the validator records
the item with `isValid = false` and the nonexistent-id reason, that record
appears in the `validateEvidence` output, and the outcome is independent of
the relevance oracle (no semantic call is made for the item). -/
theorem validateEvidence_nonexistent_id_invalid
    (relOracle : String → NewsRecord → Option RelevanceResult)
    (report : DailyReportData) (articles : List NewsRecord)
    (checkRelevance : Bool) (relevanceThreshold : ℚ)
    (e : EvidenceItem) (n : ℤ)
    (he : e ∈ extractAllEvidences report) (hid : e.articleId = some n)
    (hnz : n ≠ 0)
    (hmem : ((articles.map fun a => a.id).contains n) = false) :
    stepEvidence relOracle checkRelevance relevanceThreshold
        (articles.map fun a => a.id) articles e =
        some ⟨e.text, some n, false, "존재하지 않는 기사 ID: " ++ toString n, none⟩ ∧
      (⟨e.text, some n, false, "존재하지 않는 기사 ID: " ++ toString n, none⟩ :
          EvidenceValidationItem) ∈
        (validateEvidence relOracle report articles checkRelevance
          relevanceThreshold).details ∧
      ∀ relOracle2, stepEvidence relOracle2 checkRelevance relevanceThreshold
          (articles.map fun a => a.id) articles e =
        stepEvidence relOracle checkRelevance relevanceThreshold
          (articles.map fun a => a.id) articles e := by
  have hbeq : (n == 0) = false := beq_eq_false_iff_ne.mpr hnz
  have hnotex : ¬ ∃ a ∈ articles, a.id = n := by simpa using hmem
  have hstep : ∀ ro : String → NewsRecord → Option RelevanceResult,
      stepEvidence ro checkRelevance relevanceThreshold
          (articles.map fun a => a.id) articles e =
        some ⟨e.text, some n, false,
          "존재하지 않는 기사 ID: " ++ toString n, none⟩ := by
    intro ro
    simp [stepEvidence, validateArticleIdExists, hid, hbeq, hnotex]
  refine ⟨hstep relOracle, ?_, fun ro2 => by rw [hstep ro2, hstep relOracle]⟩
  exact List.mem_filterMap.mpr ⟨e, he, hstep relOracle⟩

/-- Witness for C5 (amended) at a concrete input: the scenario from the spec itself —
an evidence item citing `articleId = 9999` against a corpus whose only id
is 1. -/
theorem validateEvidence_nonexistent_id_invalid_witness :
    ((⟨"없는 기사 인용", some 9999, none⟩ : EvidenceItem) ∈
        extractAllEvidences ⟨[⟨[⟨"없는 기사 인용", some 9999, none⟩]⟩]⟩ ∧
      (9999 : ℤ) ≠ 0 ∧
      ((([⟨1, "기사"⟩] : List NewsRecord).map fun a => a.id).contains 9999) = false) ∧
      (stepEvidence (fun _ _ => none) true 5
          (([⟨1, "기사"⟩] : List NewsRecord).map fun a => a.id) [⟨1, "기사"⟩]
          ⟨"없는 기사 인용", some 9999, none⟩ =
        some ⟨"없는 기사 인용", some 9999, false,
          "존재하지 않는 기사 ID: " ++ toString (9999 : ℤ), none⟩ ∧
        (⟨"없는 기사 인용", some 9999, false,
            "존재하지 않는 기사 ID: " ++ toString (9999 : ℤ), none⟩ :
            EvidenceValidationItem) ∈
          (validateEvidence (fun _ _ => none)
            ⟨[⟨[⟨"없는 기사 인용", some 9999, none⟩]⟩]⟩ [⟨1, "기사"⟩] true 5).details ∧
        ∀ relOracle2, stepEvidence relOracle2 true 5
            (([⟨1, "기사"⟩] : List NewsRecord).map fun a => a.id) [⟨1, "기사"⟩]
            ⟨"없는 기사 인용", some 9999, none⟩ =
          stepEvidence (fun _ _ => none) true 5
            (([⟨1, "기사"⟩] : List NewsRecord).map fun a => a.id) [⟨1, "기사"⟩]
            ⟨"없는 기사 인용", some 9999, none⟩) :=
  ⟨⟨by decide, by decide, by decide⟩,
    validateEvidence_nonexistent_id_invalid (fun _ _ => none)
      ⟨[⟨[⟨"없는 기사 인용", some 9999, none⟩]⟩]⟩ [⟨1, "기사"⟩] true 5
      ⟨"없는 기사 인용", some 9999, none⟩ 9999
      (by decide) rfl (by decide) (by decide)⟩

/-! ## src/services/evidence-validator.ts : `calculateEvidenceScore` and
src/services/quality-evaluator.ts : `calculateFinalQualityScore` -/

/-- `QualityEvaluationSchema`, restricted to the one field
`calculateFinalQualityScore` reads (`overallScore`, 0–100); the six rubric
sub-scores and free-text fields are not consulted by it. -/
structure QualityEvaluation where
  overallScore : ℚ
deriving DecidableEq

/-- `calculateEvidenceScore(validation)`: 100 when there is no evidence;
otherwise the validation rate, blended — when any semantic-relevance scores
are present — as `rate * 0.9 + avgRelevance * 10 * 0.1`, rounded to one
decimal. -/
def calculateEvidenceScore (validation : EvidenceValidation) : ℚ :=
  if validation.totalEvidences = 0 then 100
  else
    let relevanceScores := validation.details.filterMap fun d => d.relevanceScore
    let score := validation.validationRate
    let blended :=
      if 0 < relevanceScores.length then
        score * (9 / 10) +
          (relevanceScores.sum / (relevanceScores.length : ℚ)) * 10 * (1 / 10)
      else score
    round1 blended

/-- `calculateFinalQualityScore(qualityEvaluation, evidenceScore)`:
`0.6 * overallScore + 0.4 * evidenceScore`, rounded to one decimal. -/
def calculateFinalQualityScore (qualityEvaluation : QualityEvaluation)
    (evidenceScore : ℚ) : ℚ :=
  round1 (qualityEvaluation.overallScore * (6 / 10) + evidenceScore * (4 / 10))

/-- C8: the final digest grade is `0.6 * overallScore + 0.4 * evidenceScore`
rounded to one decimal, and the evidence score equals the validation
pass-rate when no semantic-relevance scores are present (in particular 100
when there is no evidence, since `validateEvidence` reports rate 100 then),
and otherwise `rate * 0.9 + (avgRelevance * 10) * 0.1` rounded to one
decimal. The two hypotheses record invariants of every `validateEvidence`
output: an empty corpus yields rate 100 with no details, and the reported
rate is already rounded to one decimal. -/
theorem finalQualityScore_blend (q : QualityEvaluation) (v : EvidenceValidation)
    (h0 : v.totalEvidences = 0 → v.validationRate = 100 ∧ v.details = [])
    (h1 : round1 v.validationRate = v.validationRate) :
    calculateFinalQualityScore q (calculateEvidenceScore v) =
        round1 ((6 / 10) * q.overallScore + (4 / 10) * calculateEvidenceScore v) ∧
      calculateEvidenceScore v =
        (if (v.details.filterMap fun d => d.relevanceScore) = [] then
          v.validationRate
        else
          round1 (v.validationRate * (9 / 10) +
            (((v.details.filterMap fun d => d.relevanceScore).sum /
                (((v.details.filterMap fun d => d.relevanceScore).length : ℚ))) *
              10) * (1 / 10))) := by
  constructor
  · unfold calculateFinalQualityScore
    exact congrArg round1 (by ring)
  · unfold calculateEvidenceScore
    by_cases hz : v.totalEvidences = 0
    · obtain ⟨hrate, hdet⟩ := h0 hz
      rw [if_pos hz, hdet, hrate]
      simp
    · rw [if_neg hz]
      by_cases hrs : (v.details.filterMap fun d => d.relevanceScore) = []
      · rw [if_pos hrs]
        simp only [hrs, List.length_nil, lt_irrefl, if_false]
        exact h1
      · have hlen : 0 < (v.details.filterMap fun d => d.relevanceScore).length :=
          List.length_pos.mpr hrs
        rw [if_neg hrs]
        simp only [if_pos hlen]

/-- Witness for C8 at a concrete input: overall score 80, two evidence items
of which one carries relevance score 8 (rate 50). -/
theorem finalQualityScore_blend_witness :
    calculateFinalQualityScore ⟨80⟩
        (calculateEvidenceScore
          ⟨2, 1, 1, 50, [⟨"ㄱ", some 1, true, "관련", some 8⟩,
            ⟨"ㄴ", some 2, false, "무관", none⟩]⟩) =
        round1 ((6 / 10) * (80 : ℚ) + (4 / 10) * calculateEvidenceScore
          ⟨2, 1, 1, 50, [⟨"ㄱ", some 1, true, "관련", some 8⟩,
            ⟨"ㄴ", some 2, false, "무관", none⟩]⟩) ∧
      calculateEvidenceScore
          ⟨2, 1, 1, 50, [⟨"ㄱ", some 1, true, "관련", some 8⟩,
            ⟨"ㄴ", some 2, false, "무관", none⟩]⟩ =
        (if (([⟨"ㄱ", some 1, true, "관련", some 8⟩,
              ⟨"ㄴ", some 2, false, "무관", none⟩] :
                List EvidenceValidationItem).filterMap fun d => d.relevanceScore) = []
        then (50 : ℚ)
        else
          round1 ((50 : ℚ) * (9 / 10) +
            (((([⟨"ㄱ", some 1, true, "관련", some 8⟩,
                  ⟨"ㄴ", some 2, false, "무관", none⟩] :
                    List EvidenceValidationItem).filterMap
                  fun d => d.relevanceScore).sum /
                ((((([⟨"ㄱ", some 1, true, "관련", some 8⟩,
                    ⟨"ㄴ", some 2, false, "무관", none⟩] :
                      List EvidenceValidationItem).filterMap
                    fun d => d.relevanceScore).length : ℕ)) : ℚ)) * 10) * (1 / 10))) :=
  finalQualityScore_blend ⟨80⟩
    ⟨2, 1, 1, 50, [⟨"ㄱ", some 1, true, "관련", some 8⟩,
      ⟨"ㄴ", some 2, false, "무관", none⟩]⟩
    (by intro h; exact absurd h (by decide)) (by norm_num [round1])

theorem round1_idem (x : ℚ) : round1 (round1 x) = round1 x := by
  unfold round1
  rw [div_mul_cancel₀ _ (by norm_num : (10 : ℚ) ≠ 0), round_intCast]

/-- Every `validateEvidence` output satisfies the two invariants assumed by
`finalQualityScore_blend`: a report with no evidence gets rate 100 and no
details, and the reported rate is already rounded to one decimal. -/
theorem validateEvidence_rate_invariants
    (relOracle : String → NewsRecord → Option RelevanceResult)
    (report : DailyReportData) (articles : List NewsRecord)
    (checkRelevance : Bool) (relevanceThreshold : ℚ) :
    ((validateEvidence relOracle report articles checkRelevance
          relevanceThreshold).totalEvidences = 0 →
        (validateEvidence relOracle report articles checkRelevance
            relevanceThreshold).validationRate = 100 ∧
        (validateEvidence relOracle report articles checkRelevance
            relevanceThreshold).details = []) ∧
      round1 (validateEvidence relOracle report articles checkRelevance
          relevanceThreshold).validationRate =
        (validateEvidence relOracle report articles checkRelevance
          relevanceThreshold).validationRate := by
  constructor
  · intro h
    simp only [validateEvidence] at h ⊢
    have hnil : extractAllEvidences report = [] :=
      List.eq_nil_of_length_eq_zero h
    rw [hnil]
    norm_num [round1, round_eq]
  · simp only [validateEvidence]
    exact round1_idem _

end EcoSnack
